import Mathlib

/-!
# SpoutReceiver: the receiver state machine

A shallow embedding of `libs/SpoutSDK/src/SpoutReceiver.cpp` (the 2.007 application
functions `SetupReceiver`, `SetReceiverName`, `ReceiveTextureData`, `ReceiveImageData`,
`IsUpdated`, `IsConnected`, `CloseReceiver`) and proofs about it.

Conventions of the embedding.

* A C string is represented by the characters that precede its terminating NUL.
  The content of a `char[256]` member is therefore a string of fewer than 256 characters.
* `unsigned int`, `GLuint`, `GLenum` and pointers are natural numbers; the receiver does no
  arithmetic on them, it only stores, compares and forwards them.
* The `spout` member (registry client and interop layer) is not part of this file of the
  repository. Its operations are taken as a parameter (`Backend`), and every call the
  receiver makes on it is recorded, with its arguments, in a list of `Call`s.
-/

namespace Spout

/-- Content of a `char[256]` buffer: the characters before the terminator. -/
abbrev SenderName := { s : String // s.length < 256 }

/-- The empty buffer content, as written by `buf[0] = 0`. -/
def SenderName.empty : SenderName := ⟨"", by decide⟩

/-- Secure string copy `strcpy_s(dst, sizeInBytes, src)`: the new content of `dst` when `src`
and its terminator fit in `sizeInBytes` characters; `none` when they do not fit, in which case
the CRT invalid-parameter handler runs (by default it terminates the process). -/
def strcpy_s (sizeInBytes : Nat) (src : String) :
    Option { d : String // d.length < sizeInBytes } :=
  if h : src.length < sizeInBytes then some ⟨src, h⟩ else none

/-- Values left behind by a `spout` call that takes `char* name, unsigned int &width,
unsigned int &height`: the boolean it returns and the content of the three in-out arguments
after the call. -/
structure Reply where
  ok : Bool
  name : SenderName
  width : Nat
  height : Nat
deriving DecidableEq

/-- The operations of the `spout` member that the 2.007 functions use. `ReceiveTexture` and
`ReceiveImage` are called with their leading arguments only (name, width, height, and a null
pixel pointer for the image variant); the trailing arguments take the defaults of the class
declaration. `ReleaseReceiver` returns nothing and so has no field here; it is recorded as a
`Call`. The receiver's own `CreateReceiver`, `ReleaseReceiver`, `ReceiveTexture` and
`ReceiveImage` only forward to `spout`, and `ReadTexture`, `ReadTexturePixels` are those of
`spout.interop`. -/
structure Backend where
  CreateReceiver : SenderName → Nat → Nat → Bool → Reply
  ReceiveTexture : SenderName → Nat → Nat → Reply
  ReceiveImage : SenderName → Nat → Nat → Option Nat → Reply
  ReadTexture : SenderName → Nat → Nat → Nat → Nat → Bool → Nat → Bool
  ReadTexturePixels : SenderName → Nat → Nat → Nat → Nat → Bool → Nat → Bool

/-- One call made on the `spout` member, with the arguments passed. -/
inductive Call where
  | CreateReceiver (name : SenderName) (width height : Nat) (bUseActive : Bool)
  | ReceiveTexture (name : SenderName) (width height : Nat)
  | ReceiveImage (name : SenderName) (width height : Nat) (pixels : Option Nat)
  | ReadTexture (name : SenderName) (TextureID TextureTarget width height : Nat)
      (bInvert : Bool) (HostFbo : Nat)
  | ReadTexturePixels (name : SenderName) (pixels width height glFormat : Nat)
      (bInvert : Bool) (HostFbo : Nat)
  | ReleaseReceiver
deriving DecidableEq

/-- Member variables of the class `SpoutReceiver`. -/
structure SpoutReceiver where
  m_SenderNameSetup : SenderName
  m_SenderName : SenderName
  m_TextureID : Nat
  m_TextureTarget : Nat
  m_bInvert : Bool
  m_bUseActive : Bool
  m_Width : Nat
  m_Height : Nat
  m_bUpdate : Bool
  m_bConnected : Bool
deriving DecidableEq

/-- What a member function leaves behind: the value returned, the receiver afterwards and the
calls made on `spout`, in order. -/
structure Outcome where
  ret : Bool
  state : SpoutReceiver
  calls : List Call
deriving DecidableEq

set_option linter.dupNamespace false in
/-- The constructor `SpoutReceiver::SpoutReceiver()`. -/
def SpoutReceiver.SpoutReceiver : SpoutReceiver :=
  { m_SenderNameSetup := SenderName.empty
    m_SenderName := SenderName.empty
    m_TextureID := 0
    m_TextureTarget := 0
    m_bInvert := false
    m_bUseActive := false
    m_Width := 0
    m_Height := 0
    m_bUpdate := false
    m_bConnected := false }

/-- `SpoutReceiver::SetupReceiver(width, height, bInvert)`. -/
def SetupReceiver (r : SpoutReceiver) (width height : Nat) (bInvert : Bool) : SpoutReceiver :=
  { r with
    m_SenderNameSetup := SenderName.empty
    m_SenderName := SenderName.empty
    m_bUseActive := true
    m_Width := width
    m_Height := height
    m_bInvert := bInvert
    m_bUpdate := false
    m_bConnected := false }

/-- `SpoutReceiver::SetReceiverName(const char* SenderName)`. The argument is `none` for a
null pointer. The result is `none` when a `strcpy_s` does not fit. -/
def SetReceiverName (r : SpoutReceiver) (SenderName : Option String) : Option SpoutReceiver :=
  match SenderName with
  | none => some r
  | some s =>
    if s ≠ "" then do
      let setupName ← strcpy_s 256 s
      let name ← strcpy_s 256 s
      pure { r with m_SenderNameSetup := setupName, m_SenderName := name, m_bUseActive := false }
    else some r

/-- `SpoutReceiver::IsUpdated()`. -/
def IsUpdated (r : SpoutReceiver) : Bool := r.m_bUpdate

/-- `SpoutReceiver::IsConnected()`. -/
def IsConnected (r : SpoutReceiver) : Bool := r.m_bConnected

/-- `SpoutReceiver::CloseReceiver()`. The copy of `m_SenderNameSetup` into `m_SenderName`
always fits, both being `char[256]`. -/
def CloseReceiver (r : SpoutReceiver) : SpoutReceiver × List Call :=
  ({ r with
      m_SenderName := r.m_SenderNameSetup
      m_Width := 0
      m_Height := 0
      m_bUpdate := false
      m_bConnected := false },
   [Call.ReleaseReceiver])

/-- `SpoutReceiver::ReceiveTextureData(TextureID, TextureTarget, HostFbo)`. When not
connected, `CreateReceiver` is handed the members `m_SenderName`, `m_Width`, `m_Height`
themselves, so what it leaves in them stays, whether it succeeds or not. When connected, the
probe works on local copies, which are stored only when they differ from the members. -/
def ReceiveTextureData (r : SpoutReceiver) (spout : Backend)
    (TextureID TextureTarget HostFbo : Nat) : Outcome :=
  let r := { r with m_bUpdate := false }
  if !IsConnected r then
    let c := spout.CreateReceiver r.m_SenderName r.m_Width r.m_Height r.m_bUseActive
    let log := [Call.CreateReceiver r.m_SenderName r.m_Width r.m_Height r.m_bUseActive]
    let r := { r with m_SenderName := c.name, m_Width := c.width, m_Height := c.height }
    if c.ok then
      ⟨true, { r with m_bUpdate := true, m_bConnected := true }, log⟩
    else
      ⟨false, r, log⟩
  else
    let p := spout.ReceiveTexture r.m_SenderName r.m_Width r.m_Height
    let log := [Call.ReceiveTexture r.m_SenderName r.m_Width r.m_Height]
    if p.ok then
      if p.width ≠ r.m_Width ∨ p.height ≠ r.m_Height ∨ p.name ≠ r.m_SenderName then
        ⟨true,
         { r with m_SenderName := p.name, m_Width := p.width, m_Height := p.height,
                  m_bUpdate := true },
         log⟩
      else
        ⟨spout.ReadTexture r.m_SenderName TextureID TextureTarget r.m_Width r.m_Height false
            HostFbo,
         r,
         log ++ [Call.ReadTexture r.m_SenderName TextureID TextureTarget r.m_Width r.m_Height
                   false HostFbo]⟩
    else
      let cl := CloseReceiver r
      ⟨false, cl.1, log ++ cl.2⟩

/-- `SpoutReceiver::ReceiveImageData(pixels, glFormat, HostFbo)`. Same shape as
`ReceiveTextureData`; the probe is `ReceiveImage` with a null pixel pointer, and the copy is
`ReadTexturePixels` with the probed width and height and `m_bInvert`. -/
def ReceiveImageData (r : SpoutReceiver) (spout : Backend)
    (pixels glFormat HostFbo : Nat) : Outcome :=
  let r := { r with m_bUpdate := false }
  if !IsConnected r then
    let c := spout.CreateReceiver r.m_SenderName r.m_Width r.m_Height r.m_bUseActive
    let log := [Call.CreateReceiver r.m_SenderName r.m_Width r.m_Height r.m_bUseActive]
    let r := { r with m_SenderName := c.name, m_Width := c.width, m_Height := c.height }
    if c.ok then
      ⟨true, { r with m_bUpdate := true, m_bConnected := true }, log⟩
    else
      ⟨false, r, log⟩
  else
    let p := spout.ReceiveImage r.m_SenderName r.m_Width r.m_Height none
    let log := [Call.ReceiveImage r.m_SenderName r.m_Width r.m_Height none]
    if p.ok then
      if p.width ≠ r.m_Width ∨ p.height ≠ r.m_Height ∨ r.m_SenderName ≠ p.name then
        ⟨true,
         { r with m_SenderName := p.name, m_Width := p.width, m_Height := p.height,
                  m_bUpdate := true },
         log⟩
      else
        ⟨spout.ReadTexturePixels r.m_SenderName pixels p.width p.height glFormat r.m_bInvert
            HostFbo,
         r,
         log ++ [Call.ReadTexturePixels r.m_SenderName pixels p.width p.height glFormat
                   r.m_bInvert HostFbo]⟩
    else
      let cl := CloseReceiver r
      ⟨false, cl.1, log ++ cl.2⟩


/-- A receive request of the application: which of the two functions, with its arguments. -/
inductive ReceiveCall where
  | texture (TextureID TextureTarget HostFbo : Nat)
  | image (pixels glFormat HostFbo : Nat)
deriving DecidableEq

/-- The receive function the request names, applied to its arguments. -/
def receive (r : SpoutReceiver) (spout : Backend) : ReceiveCall → Outcome
  | .texture TextureID TextureTarget HostFbo =>
      ReceiveTextureData r spout TextureID TextureTarget HostFbo
  | .image pixels glFormat HostFbo => ReceiveImageData r spout pixels glFormat HostFbo

/-- What `CreateReceiver` answers to the call the receive functions make when not connected. -/
def openReply (r : SpoutReceiver) (spout : Backend) : Reply :=
  spout.CreateReceiver r.m_SenderName r.m_Width r.m_Height r.m_bUseActive

/-- The `CreateReceiver` call the receive functions make when not connected. -/
def openCall (r : SpoutReceiver) : Call :=
  Call.CreateReceiver r.m_SenderName r.m_Width r.m_Height r.m_bUseActive

/-- What the probe (`ReceiveTexture` or `ReceiveImage` on copies of the cached name, width and
height) answers when connected. -/
def probeReply (r : SpoutReceiver) (spout : Backend) : ReceiveCall → Reply
  | .texture _ _ _ => spout.ReceiveTexture r.m_SenderName r.m_Width r.m_Height
  | .image _ _ _ => spout.ReceiveImage r.m_SenderName r.m_Width r.m_Height none

/-- The probe call the receive functions make when connected. -/
def probeCall (r : SpoutReceiver) : ReceiveCall → Call
  | .texture _ _ _ => Call.ReceiveTexture r.m_SenderName r.m_Width r.m_Height
  | .image _ _ _ => Call.ReceiveImage r.m_SenderName r.m_Width r.m_Height none

/-- The copy call the receive functions make when the probe reports no change:
`ReadTexture` with a literal `false` for the invert argument in `ReceiveTextureData`,
`ReadTexturePixels` with `m_bInvert` in `ReceiveImageData`. -/
def copyCall (r : SpoutReceiver) : ReceiveCall → Call
  | .texture TextureID TextureTarget HostFbo =>
      Call.ReadTexture r.m_SenderName TextureID TextureTarget r.m_Width r.m_Height false HostFbo
  | .image pixels glFormat HostFbo =>
      Call.ReadTexturePixels r.m_SenderName pixels r.m_Width r.m_Height glFormat r.m_bInvert
        HostFbo

/-- Whether the call is one of the two copy primitives. -/
def Call.isCopy : Call → Bool
  | .ReadTexture _ _ _ _ _ _ _ => true
  | .ReadTexturePixels _ _ _ _ _ _ _ => true
  | _ => false

/-- The sender name, width and height arguments of a copy call. -/
def Call.copyArgs : Call → Option (SenderName × Nat × Nat)
  | .ReadTexture name _ _ width height _ _ => some (name, width, height)
  | .ReadTexturePixels name _ width height _ _ _ => some (name, width, height)
  | _ => none

/-- The boolean `spout` returns for a copy call. -/
def Backend.copyResult (spout : Backend) : Call → Option Bool
  | .ReadTexture name TextureID TextureTarget width height bInvert HostFbo =>
      some (spout.ReadTexture name TextureID TextureTarget width height bInvert HostFbo)
  | .ReadTexturePixels name pixels width height glFormat bInvert HostFbo =>
      some (spout.ReadTexturePixels name pixels width height glFormat bInvert HostFbo)
  | _ => none

/-- The probe left the cached name, width and height unchanged. -/
def Reply.same (p : Reply) (r : SpoutReceiver) : Prop :=
  p.name = r.m_SenderName ∧ p.width = r.m_Width ∧ p.height = r.m_Height

/-- Deciding `Reply.same` is comparing three values. -/
instance (p : Reply) (r : SpoutReceiver) : Decidable (p.same r) := by
  unfold Reply.same; infer_instance


/-- One operation of the application on a receiver. A receive carries the `spout` member as
it answers during that call. -/
inductive Action where
  | setup (width height : Nat) (bInvert : Bool)
  | pinName (SenderName : Option String)
  | receive (spout : Backend) (c : ReceiveCall)
  | close

/-- The receiver after one operation; `none` when the operation does not return. -/
def step (r : SpoutReceiver) : Action → Option SpoutReceiver
  | .setup width height bInvert => some (SetupReceiver r width height bInvert)
  | .pinName SenderName => SetReceiverName r SenderName
  | .receive spout c => some (receive r spout c).state
  | .close => some (CloseReceiver r).1

/-- The receiver after a sequence of operations, first to last. -/
def run (r : SpoutReceiver) : List Action → Option SpoutReceiver
  | [] => some r
  | a :: rest => (step r a).bind fun r1 => run r1 rest

/-- Whether the operation assigns `m_bUseActive`: a setup, or a pin-name with a non-empty
name. No other operation writes that member or `m_SenderNameSetup`. -/
def Action.assignsUseActive : Action → Bool
  | .setup _ _ _ => true
  | .pinName (some s) => decide (s ≠ "")
  | _ => false

/-- A `spout` whose successful `CreateReceiver`, `ReceiveTexture` and `ReceiveImage` leave a
non-empty sender name. -/
def Backend.NonEmptyNames (spout : Backend) : Prop :=
  (∀ n w h u, (spout.CreateReceiver n w h u).ok = true →
      (spout.CreateReceiver n w h u).name.val ≠ "") ∧
  (∀ n w h, (spout.ReceiveTexture n w h).ok = true →
      (spout.ReceiveTexture n w h).name.val ≠ "") ∧
  (∀ n w h p, (spout.ReceiveImage n w h p).ok = true →
      (spout.ReceiveImage n w h p).name.val ≠ "")

/-- The operation, if a receive, runs against a `spout` with `NonEmptyNames`. -/
def Action.nonEmptyNames : Action → Prop
  | .receive spout _ => spout.NonEmptyNames
  | _ => True

/-- A stable sender: `CreateReceiver`, `ReceiveTexture` and `ReceiveImage` always succeed and
always leave the same name and dimensions. The copy functions are unconstrained. -/
def Backend.Stable (spout : Backend) (name : SenderName) (W H : Nat) : Prop :=
  (∀ n w h u, spout.CreateReceiver n w h u = ⟨true, name, W, H⟩) ∧
  (∀ n w h, spout.ReceiveTexture n w h = ⟨true, name, W, H⟩) ∧
  (∀ n w h p, spout.ReceiveImage n w h p = ⟨true, name, W, H⟩)

/-- Successive receive calls, each against the `spout` of its moment: the outcome of every
call, in order. -/
def receiveAll (r : SpoutReceiver) : List (Backend × ReceiveCall) → List Outcome
  | [] => []
  | bc :: rest => receive r bc.1 bc.2 :: receiveAll (receive r bc.1 bc.2).state rest

/-- All calls made on `spout` over a list of outcomes, in order. -/
def allCalls : List Outcome → List Call
  | [] => []
  | o :: rest => o.calls ++ allCalls rest

/-- The sender name `camB`. -/
def camB : SenderName := ⟨"camB", by decide⟩

/-- The sender name `cam0`. -/
def cam0 : SenderName := ⟨"cam0", by decide⟩

/-- A `spout` with one sender of fixed name and size, whose copies all return `copy`. -/
def fixedSender (name : SenderName) (W H : Nat) (copy : Bool) : Backend :=
  { CreateReceiver := fun _ _ _ _ => ⟨true, name, W, H⟩
    ReceiveTexture := fun _ _ _ => ⟨true, name, W, H⟩
    ReceiveImage := fun _ _ _ _ => ⟨true, name, W, H⟩
    ReadTexture := fun _ _ _ _ _ _ _ => copy
    ReadTexturePixels := fun _ _ _ _ _ _ _ => copy }

/-- A `spout` with no sender: every registry call fails and leaves its arguments as passed. -/
def noSender : Backend :=
  { CreateReceiver := fun n w h _ => ⟨false, n, w, h⟩
    ReceiveTexture := fun n w h => ⟨false, n, w, h⟩
    ReceiveImage := fun n w h _ => ⟨false, n, w, h⟩
    ReadTexture := fun _ _ _ _ _ _ _ => false
    ReadTexturePixels := fun _ _ _ _ _ _ _ => false }

/-- The receiver after `SetupReceiver(0, 0, bInvert)` on a new object and one
`ReceiveTextureData` against `cam0` at 1920 by 1080: connected to `cam0`. -/
def connectedCam0 (bInvert : Bool) : SpoutReceiver :=
  (ReceiveTextureData (SetupReceiver SpoutReceiver.SpoutReceiver 0 0 bInvert)
    (fixedSender cam0 1920 1080 true) 1 3553 0).state

/-- Weak form of the pinning invariant: tracking the active sender implies no pinned name. -/
def UseActiveOnlyUnpinned (r : SpoutReceiver) : Prop :=
  r.m_bUseActive = true → r.m_SenderNameSetup.val = ""

/-- Pinning invariant: the active sender is tracked exactly when no name is pinned. -/
def UseActiveIffUnpinned (r : SpoutReceiver) : Prop :=
  r.m_bUseActive = true ↔ r.m_SenderNameSetup.val = ""

/-- The pinning members as the constructor leaves them: `m_bUseActive` false and no pinned
name. -/
def Unassigned (r : SpoutReceiver) : Prop :=
  r.m_bUseActive = false ∧ r.m_SenderNameSetup.val = ""

/-- Connection invariant: a connected receiver has a non-empty sender name. -/
def ConnectedNamed (r : SpoutReceiver) : Prop :=
  r.m_bConnected = true → r.m_SenderName.val ≠ ""

/-! ## The five paths through a receive call -/

theorem receive_open_ok (r : SpoutReceiver) (spout : Backend) (c : ReceiveCall)
    (hc : r.m_bConnected = false) (hok : (openReply r spout).ok = true) :
    receive r spout c =
      ⟨true,
       { r with m_SenderName := (openReply r spout).name, m_Width := (openReply r spout).width,
                m_Height := (openReply r spout).height, m_bUpdate := true,
                m_bConnected := true },
       [openCall r]⟩ := by
  unfold openReply at hok
  cases c <;>
    simp [receive, ReceiveTextureData, ReceiveImageData, IsConnected, openReply, openCall, hc,
      hok]

theorem receive_open_fail (r : SpoutReceiver) (spout : Backend) (c : ReceiveCall)
    (hc : r.m_bConnected = false) (hok : (openReply r spout).ok = false) :
    receive r spout c =
      ⟨false,
       { r with m_SenderName := (openReply r spout).name, m_Width := (openReply r spout).width,
                m_Height := (openReply r spout).height, m_bUpdate := false },
       [openCall r]⟩ := by
  unfold openReply at hok
  cases c <;>
    simp [receive, ReceiveTextureData, ReceiveImageData, IsConnected, openReply, openCall, hc,
      hok]

theorem receive_probe_fail (r : SpoutReceiver) (spout : Backend) (c : ReceiveCall)
    (hc : r.m_bConnected = true) (hok : (probeReply r spout c).ok = false) :
    receive r spout c = ⟨false, (CloseReceiver r).1, [probeCall r c, Call.ReleaseReceiver]⟩ := by
  cases c <;> simp only [probeReply] at hok <;>
    simp [receive, ReceiveTextureData, ReceiveImageData, IsConnected, probeCall, CloseReceiver,
      hc, hok]

theorem receive_changed (r : SpoutReceiver) (spout : Backend) (c : ReceiveCall)
    (hc : r.m_bConnected = true) (hok : (probeReply r spout c).ok = true)
    (hne : ¬ (probeReply r spout c).same r) :
    receive r spout c =
      ⟨true,
       { r with m_SenderName := (probeReply r spout c).name,
                m_Width := (probeReply r spout c).width,
                m_Height := (probeReply r spout c).height, m_bUpdate := true },
       [probeCall r c]⟩ := by
  cases c <;> simp only [probeReply, Reply.same] at hok hne <;>
    simp only [receive, ReceiveTextureData, ReceiveImageData, IsConnected, probeCall, probeReply,
      hc, hok] <;>
    simp <;> intro h1 h2 h3 <;> first | exact hne ⟨h3, h1, h2⟩ | exact hne ⟨h3.symm, h1, h2⟩

theorem receive_same (r : SpoutReceiver) (spout : Backend) (c : ReceiveCall)
    (hc : r.m_bConnected = true) (hok : (probeReply r spout c).ok = true)
    (heq : (probeReply r spout c).same r) :
    receive r spout c =
      ⟨(spout.copyResult (copyCall r c)).getD false, { r with m_bUpdate := false },
       [probeCall r c, copyCall r c]⟩ := by
  obtain ⟨h3, h1, h2⟩ := heq
  cases c <;> simp only [probeReply] at hok h1 h2 h3 <;>
    simp [receive, ReceiveTextureData, ReceiveImageData, IsConnected, probeCall, copyCall,
      Backend.copyResult, hc, hok, h1, h2, h3]

theorem receive_keeps_setup (r : SpoutReceiver) (spout : Backend) (c : ReceiveCall) :
    (receive r spout c).state.m_SenderNameSetup = r.m_SenderNameSetup ∧
    (receive r spout c).state.m_bUseActive = r.m_bUseActive := by
  rcases Bool.eq_false_or_eq_true r.m_bConnected with hc | hc
  · rcases Bool.eq_false_or_eq_true (probeReply r spout c).ok with hok | hok
    · by_cases hs : (probeReply r spout c).same r
      · rw [receive_same r spout c hc hok hs]
        exact ⟨rfl, rfl⟩
      · rw [receive_changed r spout c hc hok hs]
        exact ⟨rfl, rfl⟩
    · rw [receive_probe_fail r spout c hc hok]
      exact ⟨rfl, rfl⟩
  · rcases Bool.eq_false_or_eq_true (openReply r spout).ok with hok | hok
    · rw [receive_open_ok r spout c hc hok]
      exact ⟨rfl, rfl⟩
    · rw [receive_open_fail r spout c hc hok]
      exact ⟨rfl, rfl⟩

theorem SetReceiverName_some (r p : SpoutReceiver) (n : Option String)
    (h : SetReceiverName r n = some p) :
    p = r ∨ ∃ s hs, s ≠ "" ∧
      p = { r with m_SenderNameSetup := ⟨s, hs⟩, m_SenderName := ⟨s, hs⟩,
                   m_bUseActive := false } := by
  cases n with
  | none =>
    simp only [SetReceiverName, Option.some.injEq] at h
    exact Or.inl h.symm
  | some s =>
    by_cases hne : s = ""
    · simp only [SetReceiverName, hne, ne_eq, not_true_eq_false, if_false,
        Option.some.injEq] at h
      exact Or.inl h.symm
    · by_cases hfit : s.length < 256
      · right
        refine ⟨s, hfit, hne, ?_⟩
        simp [SetReceiverName, strcpy_s, hne, hfit] at h
        exact h.symm
      · simp [SetReceiverName, strcpy_s, hne, hfit] at h

theorem step_weak (r p : SpoutReceiver) (a : Action) (hr : UseActiveOnlyUnpinned r)
    (h : step r a = some p) : UseActiveOnlyUnpinned p := by
  cases a with
  | setup w h i =>
    simp only [step, Option.some.injEq] at h
    subst h
    intro _
    rfl
  | pinName n =>
    rcases SetReceiverName_some r p n h with rfl | ⟨s, hs, _, rfl⟩
    · exact hr
    · intro hu
      exact absurd hu (by simp)
  | receive spout c =>
    simp only [step, Option.some.injEq] at h
    subst h
    unfold UseActiveOnlyUnpinned
    rw [(receive_keeps_setup r spout c).1, (receive_keeps_setup r spout c).2]
    exact hr
  | close =>
    simp only [step, Option.some.injEq] at h
    subst h
    exact hr

theorem step_strong (r p : SpoutReceiver) (a : Action) (hr : UseActiveIffUnpinned r)
    (h : step r a = some p) : UseActiveIffUnpinned p := by
  cases a with
  | setup w h i =>
    simp only [step, Option.some.injEq] at h
    subst h
    exact ⟨fun _ => rfl, fun _ => rfl⟩
  | pinName n =>
    rcases SetReceiverName_some r p n h with rfl | ⟨s, hs, hne, rfl⟩
    · exact hr
    · exact ⟨fun hu => absurd hu (by simp), fun hs => absurd hs hne⟩
  | receive spout c =>
    simp only [step, Option.some.injEq] at h
    subst h
    unfold UseActiveIffUnpinned
    rw [(receive_keeps_setup r spout c).1, (receive_keeps_setup r spout c).2]
    exact hr
  | close =>
    simp only [step, Option.some.injEq] at h
    subst h
    exact hr

theorem step_assigns (r p : SpoutReceiver) (a : Action) (ha : a.assignsUseActive = true)
    (h : step r a = some p) : UseActiveIffUnpinned p := by
  cases a with
  | setup w h i =>
    simp only [step, Option.some.injEq] at h
    subst h
    exact ⟨fun _ => rfl, fun _ => rfl⟩
  | pinName n =>
    cases n with
    | none => simp [Action.assignsUseActive] at ha
    | some s =>
      have hne : s ≠ "" := by simpa [Action.assignsUseActive] using ha
      by_cases hfit : s.length < 256
      · simp [step, SetReceiverName, strcpy_s, hne, hfit] at h
        subst h
        exact ⟨fun hu => absurd hu (by simp), fun hs => absurd hs hne⟩
      · simp [step, SetReceiverName, strcpy_s, hne, hfit] at h
  | receive spout c => simp [Action.assignsUseActive] at ha
  | close => simp [Action.assignsUseActive] at ha

theorem step_unassigned (r p : SpoutReceiver) (a : Action)
    (ha : a.assignsUseActive = false) (hr : Unassigned r) (h : step r a = some p) :
    Unassigned p := by
  cases a with
  | setup w h i => simp [Action.assignsUseActive] at ha
  | pinName n =>
    cases n with
    | none =>
      simp only [step, SetReceiverName, Option.some.injEq] at h
      exact h ▸ hr
    | some s =>
      have he : s = "" := by simpa [Action.assignsUseActive] using ha
      simp only [step, SetReceiverName, he, ne_eq, not_true_eq_false, if_false,
        Option.some.injEq] at h
      exact h ▸ hr
  | receive spout c =>
    simp only [step, Option.some.injEq] at h
    subst h
    unfold Unassigned
    rw [(receive_keeps_setup r spout c).1, (receive_keeps_setup r spout c).2]
    exact hr
  | close =>
    simp only [step, Option.some.injEq] at h
    subst h
    exact hr

theorem run_cons (r p : SpoutReceiver) (a : Action) (rest : List Action)
    (h : run r (a :: rest) = some p) : ∃ q, step r a = some q ∧ run q rest = some p := by
  simp only [run] at h
  cases hs : step r a with
  | none => simp [hs] at h
  | some q => exact ⟨q, rfl, by simpa [hs] using h⟩

theorem run_weak (acts : List Action) (r p : SpoutReceiver) (hr : UseActiveOnlyUnpinned r)
    (h : run r acts = some p) : UseActiveOnlyUnpinned p := by
  induction acts generalizing r with
  | nil =>
    simp only [run, Option.some.injEq] at h
    exact h ▸ hr
  | cons a rest ih =>
    obtain ⟨q, hq, hrest⟩ := run_cons r p a rest h
    exact ih q (step_weak r q a hr hq) hrest

theorem run_strong (acts : List Action) (r p : SpoutReceiver) (hr : UseActiveIffUnpinned r)
    (h : run r acts = some p) : UseActiveIffUnpinned p := by
  induction acts generalizing r with
  | nil =>
    simp only [run, Option.some.injEq] at h
    exact h ▸ hr
  | cons a rest ih =>
    obtain ⟨q, hq, hrest⟩ := run_cons r p a rest h
    exact ih q (step_strong r q a hr hq) hrest

theorem run_after_assign (acts : List Action) (r p : SpoutReceiver)
    (hs : acts.any Action.assignsUseActive = true) (h : run r acts = some p) :
    UseActiveIffUnpinned p := by
  induction acts generalizing r with
  | nil => simp at hs
  | cons a rest ih =>
    obtain ⟨q, hq, hrest⟩ := run_cons r p a rest h
    rcases Bool.eq_false_or_eq_true a.assignsUseActive with ha | ha
    · exact run_strong rest q p (step_assigns r q a ha hq) hrest
    · simp only [List.any_cons, ha, Bool.false_or] at hs
      exact ih q hs hrest

theorem run_unassigned (acts : List Action) (r p : SpoutReceiver)
    (hs : acts.any Action.assignsUseActive = false) (hr : Unassigned r)
    (h : run r acts = some p) : Unassigned p := by
  induction acts generalizing r with
  | nil =>
    simp only [run, Option.some.injEq] at h
    exact h ▸ hr
  | cons a rest ih =>
    obtain ⟨q, hq, hrest⟩ := run_cons r p a rest h
    simp only [List.any_cons, Bool.or_eq_false_iff] at hs
    exact ih q hs.2 (step_unassigned r q a hs.1 hr hq) hrest

theorem step_connected_named (r p : SpoutReceiver) (a : Action) (hr : ConnectedNamed r)
    (ha : a.nonEmptyNames) (h : step r a = some p) : ConnectedNamed p := by
  cases a with
  | setup w h i =>
    simp only [step, Option.some.injEq] at h
    subst h
    intro hc
    exact absurd hc (by simp [SetupReceiver])
  | pinName n =>
    rcases SetReceiverName_some r p n h with rfl | ⟨s, hs, hne, rfl⟩
    · exact hr
    · intro _
      exact hne
  | receive spout c =>
    simp only [step, Option.some.injEq] at h
    subst h
    obtain ⟨hcr, htex, himg⟩ := ha
    rcases Bool.eq_false_or_eq_true r.m_bConnected with hc | hc
    · rcases Bool.eq_false_or_eq_true (probeReply r spout c).ok with hok | hok
      · by_cases hs : (probeReply r spout c).same r
        · rw [receive_same r spout c hc hok hs]
          intro _
          exact hr hc
        · rw [receive_changed r spout c hc hok hs]
          intro _
          cases c with
          | texture t g f => exact htex _ _ _ hok
          | image x g f => exact himg _ _ _ _ hok
      · rw [receive_probe_fail r spout c hc hok]
        intro hcl
        exact absurd hcl (by simp [CloseReceiver])
    · rcases Bool.eq_false_or_eq_true (openReply r spout).ok with hok | hok
      · rw [receive_open_ok r spout c hc hok]
        intro _
        exact hcr _ _ _ _ hok
      · rw [receive_open_fail r spout c hc hok]
        intro hcl
        simp only [hc] at hcl
        exact absurd hcl (by simp)
  | close =>
    simp only [step, Option.some.injEq] at h
    subst h
    intro hc
    exact absurd hc (by simp [CloseReceiver])

theorem run_connected_named (acts : List Action) (r p : SpoutReceiver)
    (hr : ConnectedNamed r) (hb : ∀ a ∈ acts, a.nonEmptyNames) (h : run r acts = some p) :
    ConnectedNamed p := by
  induction acts generalizing r with
  | nil =>
    simp only [run, Option.some.injEq] at h
    exact h ▸ hr
  | cons a rest ih =>
    obtain ⟨q, hq, hrest⟩ := run_cons r p a rest h
    exact ih q (step_connected_named r q a hr (hb a (List.mem_cons_self a rest)) hq)
      (fun b hbm => hb b (List.mem_cons_of_mem a hbm)) hrest

theorem receive_stable (r : SpoutReceiver) (spout : Backend) (c : ReceiveCall)
    (name : SenderName) (W H : Nat) (hs : spout.Stable name W H)
    (hc : r.m_bConnected = true) (hn : r.m_SenderName = name) (hw : r.m_Width = W)
    (hh : r.m_Height = H) :
    receive r spout c =
      ⟨(spout.copyResult (copyCall r c)).getD false, { r with m_bUpdate := false },
       [probeCall r c, copyCall r c]⟩ := by
  have hp : probeReply r spout c = ⟨true, name, W, H⟩ := by
    cases c
    · exact hs.2.1 _ _ _
    · exact hs.2.2 _ _ _ _
  refine receive_same r spout c hc (by rw [hp]) ?_
  rw [hp]
  exact ⟨hn.symm, hw.symm, hh.symm⟩

theorem copyCall_isCopy (r : SpoutReceiver) (c : ReceiveCall) :
    [probeCall r c, copyCall r c].filter Call.isCopy = [copyCall r c] ∧
    (copyCall r c).copyArgs = some (r.m_SenderName, r.m_Width, r.m_Height) := by
  cases c <;> simp [probeCall, copyCall, Call.isCopy, Call.copyArgs]

theorem allCalls_copies (outs : List Outcome)
    (h : ∀ o ∈ outs, ∃ k, o.calls.filter Call.isCopy = [k]) :
    ((allCalls outs).filter Call.isCopy).length = outs.length := by
  induction outs with
  | nil => rfl
  | cons o rest ih =>
    obtain ⟨k, hk⟩ := h o (List.mem_cons_self o rest)
    simp only [allCalls, List.filter_append, List.length_append, hk, List.length_cons,
      List.length_nil]
    rw [ih fun p hp => h p (List.mem_cons_of_mem o hp)]
    omega

theorem receiveAll_length (calls : List (Backend × ReceiveCall)) (r : SpoutReceiver) :
    (receiveAll r calls).length = calls.length := by
  induction calls generalizing r with
  | nil => rfl
  | cons bc rest ih => simp [receiveAll, ih]

theorem receiveAll_stable (calls : List (Backend × ReceiveCall)) (r : SpoutReceiver)
    (name : SenderName) (W H : Nat) (hall : ∀ bc ∈ calls, bc.1.Stable name W H)
    (hc : r.m_bConnected = true) (hn : r.m_SenderName = name) (hw : r.m_Width = W)
    (hh : r.m_Height = H) :
    ∀ o ∈ receiveAll r calls,
      (∃ k, o.calls.filter Call.isCopy = [k] ∧ k.copyArgs = some (name, W, H)) ∧
      o.state.m_bUpdate = false ∧ o.state.m_bConnected = true ∧
      o.state.m_SenderName = name ∧ o.state.m_Width = W ∧ o.state.m_Height = H := by
  induction calls generalizing r with
  | nil =>
    intro o ho
    simp [receiveAll] at ho
  | cons bc rest ih =>
    have hbc := hall bc (List.mem_cons_self bc rest)
    have hrec := receive_stable r bc.1 bc.2 name W H hbc hc hn hw hh
    intro o ho
    simp only [receiveAll, List.mem_cons] at ho
    rcases ho with rfl | ho
    · rw [hrec]
      refine ⟨⟨copyCall r bc.2, (copyCall_isCopy r bc.2).1, ?_⟩, rfl, hc, hn, hw, hh⟩
      rw [(copyCall_isCopy r bc.2).2, hn, hw, hh]
    · rw [hrec] at ho
      exact ih { r with m_bUpdate := false }
        (fun b hb => hall b (List.mem_cons_of_mem bc hb)) hc hn hw hh o ho

/-! ## Claims -/

/-- C2: a receive call that returns true with the update flag set made no copy call, leaves
the receiver connected, and has cached the name, width and height that `spout` left on that
call: those of `CreateReceiver` when the receiver was not connected, those of the probe,
different from the cached ones, when it was. -/
theorem receive_true_updated (r : SpoutReceiver) (spout : Backend) (c : ReceiveCall)
    (hret : (receive r spout c).ret = true)
    (hupd : (receive r spout c).state.m_bUpdate = true) :
    (∀ k ∈ (receive r spout c).calls, k.isCopy = false) ∧
    (receive r spout c).state.m_bConnected = true ∧
    ((r.m_bConnected = false ∧ (openReply r spout).ok = true ∧
        (receive r spout c).state.m_SenderName = (openReply r spout).name ∧
        (receive r spout c).state.m_Width = (openReply r spout).width ∧
        (receive r spout c).state.m_Height = (openReply r spout).height)
     ∨ (r.m_bConnected = true ∧ (probeReply r spout c).ok = true ∧
        ¬ (probeReply r spout c).same r ∧
        (receive r spout c).state.m_SenderName = (probeReply r spout c).name ∧
        (receive r spout c).state.m_Width = (probeReply r spout c).width ∧
        (receive r spout c).state.m_Height = (probeReply r spout c).height)) := by
  rcases Bool.eq_false_or_eq_true r.m_bConnected with hc | hc
  · rcases Bool.eq_false_or_eq_true (probeReply r spout c).ok with hok | hok
    · by_cases hs : (probeReply r spout c).same r
      · rw [receive_same r spout c hc hok hs] at hupd
        exact absurd hupd (by simp)
      · rw [receive_changed r spout c hc hok hs]
        refine ⟨?_, hc, Or.inr ⟨hc, hok, hs, rfl, rfl, rfl⟩⟩
        cases c <;> simp [probeCall, Call.isCopy]
    · rw [receive_probe_fail r spout c hc hok] at hret
      exact absurd hret (by simp)
  · rcases Bool.eq_false_or_eq_true (openReply r spout).ok with hok | hok
    · rw [receive_open_ok r spout c hc hok]
      refine ⟨?_, rfl, Or.inl ⟨hc, hok, rfl, rfl, rfl⟩⟩
      simp [openCall, Call.isCopy]
    · rw [receive_open_fail r spout c hc hok] at hret
      exact absurd hret (by simp)

/-- C2, witness: the first `ReceiveTextureData` after `SetupReceiver(0, 0, false)`, with
`cam0` at 1920 by 1080 published. -/
theorem receive_true_updated_witness :
    (receive (SetupReceiver SpoutReceiver.SpoutReceiver 0 0 false) (fixedSender cam0 1920 1080 true)
      (.texture 1 3553 0)).ret = true ∧
    (receive (SetupReceiver SpoutReceiver.SpoutReceiver 0 0 false) (fixedSender cam0 1920 1080 true)
      (.texture 1 3553 0)).state.m_bUpdate = true ∧
    (∀ k ∈ (receive (SetupReceiver SpoutReceiver.SpoutReceiver 0 0 false)
        (fixedSender cam0 1920 1080 true) (.texture 1 3553 0)).calls, k.isCopy = false) ∧
    (receive (SetupReceiver SpoutReceiver.SpoutReceiver 0 0 false) (fixedSender cam0 1920 1080 true)
      (.texture 1 3553 0)).state.m_bConnected = true :=
  ⟨by decide, by decide,
   (receive_true_updated (SetupReceiver SpoutReceiver.SpoutReceiver 0 0 false)
      (fixedSender cam0 1920 1080 true) (.texture 1 3553 0) (by decide) (by decide)).1,
   (receive_true_updated (SetupReceiver SpoutReceiver.SpoutReceiver 0 0 false)
      (fixedSender cam0 1920 1080 true) (.texture 1 3553 0) (by decide) (by decide)).2.1⟩

/-- C3: a receive call that returns true with the update flag clear dispatched exactly one
copy call; its name, width and height arguments are the cached ones, which are those the
probe left on that call and are the same as before the call; and the value returned is the
boolean that copy returned. -/
theorem receive_true_not_updated (r : SpoutReceiver) (spout : Backend) (c : ReceiveCall)
    (hret : (receive r spout c).ret = true)
    (hupd : (receive r spout c).state.m_bUpdate = false) :
    ∃ k, (receive r spout c).calls.filter Call.isCopy = [k] ∧
      k.copyArgs = some ((receive r spout c).state.m_SenderName,
        (receive r spout c).state.m_Width, (receive r spout c).state.m_Height) ∧
      spout.copyResult k = some (receive r spout c).ret ∧
      r.m_bConnected = true ∧ (probeReply r spout c).ok = true ∧
      (probeReply r spout c).name = (receive r spout c).state.m_SenderName ∧
      (probeReply r spout c).width = (receive r spout c).state.m_Width ∧
      (probeReply r spout c).height = (receive r spout c).state.m_Height ∧
      (receive r spout c).state.m_SenderName = r.m_SenderName ∧
      (receive r spout c).state.m_Width = r.m_Width ∧
      (receive r spout c).state.m_Height = r.m_Height := by
  rcases Bool.eq_false_or_eq_true r.m_bConnected with hc | hc
  · rcases Bool.eq_false_or_eq_true (probeReply r spout c).ok with hok | hok
    · by_cases hs : (probeReply r spout c).same r
      · rw [receive_same r spout c hc hok hs]
        refine ⟨copyCall r c, ?_, ?_, ?_, hc, hok, hs.1, hs.2.1, hs.2.2, rfl, rfl, rfl⟩
        · cases c <;> simp [probeCall, copyCall, Call.isCopy]
        · cases c <;> simp [copyCall, Call.copyArgs]
        · cases c <;> simp [copyCall, Backend.copyResult]
      · rw [receive_changed r spout c hc hok hs] at hupd
        exact absurd hupd (by simp)
    · rw [receive_probe_fail r spout c hc hok] at hret
      exact absurd hret (by simp)
  · rcases Bool.eq_false_or_eq_true (openReply r spout).ok with hok | hok
    · rw [receive_open_ok r spout c hc hok] at hupd
      exact absurd hupd (by simp)
    · rw [receive_open_fail r spout c hc hok] at hret
      exact absurd hret (by simp)

/-- C3, witness: connected to `cam0`, same name and size probed, `ReceiveImageData` copies. -/
theorem receive_true_not_updated_witness :
    (receive (connectedCam0 true) (fixedSender cam0 1920 1080 true) (.image 4096 6408 0)).ret
      = true ∧
    (receive (connectedCam0 true) (fixedSender cam0 1920 1080 true)
      (.image 4096 6408 0)).state.m_bUpdate = false ∧
    ∃ k, (receive (connectedCam0 true) (fixedSender cam0 1920 1080 true)
        (.image 4096 6408 0)).calls.filter Call.isCopy = [k] ∧
      k.copyArgs = some (cam0, 1920, 1080) :=
  ⟨by decide, by decide,
   (receive_true_not_updated (connectedCam0 true) (fixedSender cam0 1920 1080 true)
      (.image 4096 6408 0) (by decide) (by decide)).imp fun _ h => ⟨h.1, h.2.1⟩⟩

/-- C4 (the code at the failing input): the receiver was set up with `bInvert = true` and is
connected to `cam0`. `ReceiveTextureData` calls `ReadTexture` with invert `false`, while
`ReceiveImageData`, from the same state, calls `ReadTexturePixels` with invert `true`. -/
theorem ReceiveTextureData_passes_false_invert :
    (connectedCam0 true).m_bInvert = true ∧
    (ReceiveTextureData (connectedCam0 true) (fixedSender cam0 1920 1080 true) 1 3553 7).calls
      = [Call.ReceiveTexture cam0 1920 1080,
         Call.ReadTexture cam0 1 3553 1920 1080 false 7] ∧
    (ReceiveImageData (connectedCam0 true) (fixedSender cam0 1920 1080 true) 4096 6408 7).calls
      = [Call.ReceiveImage cam0 1920 1080 none,
         Call.ReadTexturePixels cam0 4096 1920 1080 6408 true 7] := by
  decide

/-- C5: on a connected receiver whose probe fails, a receive call returns false, calls
`ReleaseReceiver`, makes no copy call and leaves the state `CloseReceiver` produces: not
connected, update flag clear, zero width and height, `m_SenderName` equal to
`m_SenderNameSetup`, and `m_SenderNameSetup`, `m_bUseActive`, `m_bInvert` as before. -/
theorem probe_failure_closes (r : SpoutReceiver) (spout : Backend) (c : ReceiveCall)
    (hc : r.m_bConnected = true) (hfail : (probeReply r spout c).ok = false) :
    (receive r spout c).ret = false ∧
    Call.ReleaseReceiver ∈ (receive r spout c).calls ∧
    (∀ k ∈ (receive r spout c).calls, k.isCopy = false) ∧
    (receive r spout c).state = (CloseReceiver r).1 ∧
    (receive r spout c).state.m_bConnected = false ∧
    (receive r spout c).state.m_bUpdate = false ∧
    (receive r spout c).state.m_Width = 0 ∧
    (receive r spout c).state.m_Height = 0 ∧
    (receive r spout c).state.m_SenderName = (receive r spout c).state.m_SenderNameSetup ∧
    (receive r spout c).state.m_SenderNameSetup = r.m_SenderNameSetup ∧
    (receive r spout c).state.m_bUseActive = r.m_bUseActive ∧
    (receive r spout c).state.m_bInvert = r.m_bInvert := by
  rw [receive_probe_fail r spout c hc hfail]
  refine ⟨rfl, by simp, ?_, rfl, rfl, rfl, rfl, rfl, rfl, rfl, rfl, rfl⟩
  cases c <;> simp [probeCall, Call.isCopy]

/-- C5, witness: connected to `cam0`, then the sender is gone. -/
theorem probe_failure_closes_witness :
    (connectedCam0 false).m_bConnected = true ∧
    (probeReply (connectedCam0 false) noSender (.texture 1 3553 0)).ok = false ∧
    (receive (connectedCam0 false) noSender (.texture 1 3553 0)).ret = false ∧
    (receive (connectedCam0 false) noSender (.texture 1 3553 0)).state
      = (CloseReceiver (connectedCam0 false)).1 :=
  ⟨by decide, by decide,
   (probe_failure_closes (connectedCam0 false) noSender (.texture 1 3553 0)
      (by decide) (by decide)).1,
   (probe_failure_closes (connectedCam0 false) noSender (.texture 1 3553 0)
      (by decide) (by decide)).2.2.2.1⟩

/-- C9: `CloseReceiver` is idempotent on the receiver: closing twice gives the state of
closing once, in which the receiver is not connected, the update flag is clear, width and
height are zero and `m_SenderName` equals `m_SenderNameSetup`, with `m_SenderNameSetup`,
`m_bUseActive` and `m_bInvert` as before the first close. -/
theorem CloseReceiver_idempotent (r : SpoutReceiver) :
    (CloseReceiver (CloseReceiver r).1).1 = (CloseReceiver r).1 ∧
    (CloseReceiver r).1.m_bConnected = false ∧
    (CloseReceiver r).1.m_bUpdate = false ∧
    (CloseReceiver r).1.m_Width = 0 ∧
    (CloseReceiver r).1.m_Height = 0 ∧
    (CloseReceiver r).1.m_SenderName = (CloseReceiver r).1.m_SenderNameSetup ∧
    (CloseReceiver r).1.m_SenderNameSetup = r.m_SenderNameSetup ∧
    (CloseReceiver r).1.m_bUseActive = r.m_bUseActive ∧
    (CloseReceiver r).1.m_bInvert = r.m_bInvert :=
  ⟨rfl, rfl, rfl, rfl, rfl, rfl, rfl, rfl, rfl⟩

/-- C10: from any state, `SetupReceiver(w, h, inv)` gives `m_bUseActive` true, both names
empty, the given width, height and invert, not connected, update flag clear. Followed by
`SetReceiverName(n)` with `n` non-empty and of at most 255 characters, it gives
`m_bUseActive` false and both names equal to `n`, the other members as after setup. And
`SetReceiverName` with a null pointer or an empty string changes nothing. -/
theorem setup_then_pin (r : SpoutReceiver) (w h : Nat) (inv : Bool) :
    ((SetupReceiver r w h inv).m_bUseActive = true ∧
     (SetupReceiver r w h inv).m_SenderName.val = "" ∧
     (SetupReceiver r w h inv).m_SenderNameSetup.val = "" ∧
     (SetupReceiver r w h inv).m_Width = w ∧
     (SetupReceiver r w h inv).m_Height = h ∧
     (SetupReceiver r w h inv).m_bInvert = inv ∧
     (SetupReceiver r w h inv).m_bConnected = false ∧
     (SetupReceiver r w h inv).m_bUpdate = false) ∧
    (∀ n : String, n ≠ "" → n.length ≤ 255 →
      ∃ p, SetReceiverName (SetupReceiver r w h inv) (some n) = some p ∧
        p.m_bUseActive = false ∧ p.m_SenderName.val = n ∧ p.m_SenderNameSetup.val = n ∧
        p.m_Width = w ∧ p.m_Height = h ∧ p.m_bInvert = inv ∧
        p.m_bConnected = false ∧ p.m_bUpdate = false ∧
        p.m_TextureID = r.m_TextureID ∧ p.m_TextureTarget = r.m_TextureTarget) ∧
    SetReceiverName r none = some r ∧
    SetReceiverName r (some "") = some r := by
  refine ⟨⟨rfl, rfl, rfl, rfl, rfl, rfl, rfl, rfl⟩, ?_, rfl, ?_⟩
  · intro n hne hlen
    have hfit : n.length < 256 := by omega
    refine ⟨{ SetupReceiver r w h inv with
                m_SenderNameSetup := ⟨n, hfit⟩, m_SenderName := ⟨n, hfit⟩,
                m_bUseActive := false }, ?_, rfl, rfl, rfl, rfl, rfl, rfl, rfl, rfl, rfl, rfl⟩
    simp [SetReceiverName, strcpy_s, hne, hfit]
  · simp [SetReceiverName]

/-- C10, witness: `SetupReceiver(640, 480, true)` then `SetReceiverName("camB")`. -/
theorem setup_then_pin_witness :
    "camB" ≠ "" ∧ "camB".length ≤ 255 ∧
    ∃ p, SetReceiverName (SetupReceiver SpoutReceiver.SpoutReceiver 640 480 true) (some "camB")
        = some p ∧
      p.m_bUseActive = false ∧ p.m_SenderName.val = "camB" ∧ p.m_SenderNameSetup.val = "camB" :=
  ⟨by decide, by decide,
   ((setup_then_pin SpoutReceiver.SpoutReceiver 640 480 true).2.1 "camB" (by decide)
      (by decide)).imp
     fun _ hp => ⟨hp.1, hp.2.1, hp.2.2.1, hp.2.2.2.1⟩⟩

/-- C6 (as stated, refuted): the freshly constructed receiver has `m_bUseActive` false and
an empty `m_SenderNameSetup`. -/
theorem new_receiver_not_use_active :
    run SpoutReceiver.SpoutReceiver [] = some SpoutReceiver.SpoutReceiver ∧
    SpoutReceiver.SpoutReceiver.m_bUseActive = false ∧
    SpoutReceiver.SpoutReceiver.m_SenderNameSetup.val = "" ∧
    ¬ (SpoutReceiver.SpoutReceiver.m_bUseActive = true ↔
        SpoutReceiver.SpoutReceiver.m_SenderNameSetup.val = "") := by
  decide

/-- C6 (amended): in every state reachable from a freshly constructed receiver by setup,
pin-name, receive and close operations, `m_bUseActive` true implies `m_SenderNameSetup`
empty. When the sequence contains at least one setup or one pin-name with a non-empty name,
`m_bUseActive` is true exactly when `m_SenderNameSetup` is empty. When it contains neither,
the two members are as constructed: `m_bUseActive` false and `m_SenderNameSetup` empty. -/
theorem use_active_iff_once_assigned (acts : List Action) (r : SpoutReceiver)
    (hrun : run SpoutReceiver.SpoutReceiver acts = some r) :
    (r.m_bUseActive = true → r.m_SenderNameSetup.val = "") ∧
    (acts.any Action.assignsUseActive = true →
      (r.m_bUseActive = true ↔ r.m_SenderNameSetup.val = "")) ∧
    (acts.any Action.assignsUseActive = false →
      r.m_bUseActive = false ∧ r.m_SenderNameSetup.val = "") :=
  ⟨run_weak acts SpoutReceiver.SpoutReceiver r (fun h => absurd h (by decide)) hrun,
   fun hs => run_after_assign acts SpoutReceiver.SpoutReceiver r hs hrun,
   fun hs => run_unassigned acts SpoutReceiver.SpoutReceiver r hs ⟨rfl, rfl⟩ hrun⟩

/-- C6 (amended), witness: with no setup, pin `camB`, receive from `cam0`, close. -/
theorem use_active_iff_once_assigned_witness :
    run SpoutReceiver.SpoutReceiver
        [.pinName (some "camB"),
         .receive (fixedSender cam0 1920 1080 true) (.texture 1 3553 0), .close]
      = some { SpoutReceiver.SpoutReceiver with
                 m_SenderNameSetup := camB, m_SenderName := camB } ∧
    (({ SpoutReceiver.SpoutReceiver with
          m_SenderNameSetup := camB, m_SenderName := camB } : SpoutReceiver).m_bUseActive
        = true ↔
      ({ SpoutReceiver.SpoutReceiver with
          m_SenderNameSetup := camB, m_SenderName := camB } :
        SpoutReceiver).m_SenderNameSetup.val = "") :=
  ⟨by decide,
   (use_active_iff_once_assigned
      [.pinName (some "camB"),
       .receive (fixedSender cam0 1920 1080 true) (.texture 1 3553 0), .close]
      { SpoutReceiver.SpoutReceiver with m_SenderNameSetup := camB, m_SenderName := camB }
      (by decide)).2.1 (by decide)⟩

/-- C7: in every state reachable from a freshly constructed receiver by setup, pin-name,
receive and close operations, where every receive runs against a `spout` whose successful
`CreateReceiver` and probes leave a non-empty name, a connected receiver has a non-empty
`m_SenderName`. -/
theorem connected_name_nonempty (acts : List Action) (r : SpoutReceiver)
    (hb : ∀ a ∈ acts, a.nonEmptyNames) (hrun : run SpoutReceiver.SpoutReceiver acts = some r)
    (hc : r.m_bConnected = true) : r.m_SenderName.val ≠ "" :=
  run_connected_named acts SpoutReceiver.SpoutReceiver r (fun h => absurd h (by decide)) hb hrun hc

/-- C7, witness: set up, then receive from `cam0`. -/
theorem connected_name_nonempty_witness :
    run SpoutReceiver.SpoutReceiver
        [.setup 0 0 false, .receive (fixedSender cam0 1920 1080 true) (.texture 1 3553 0)]
      = some (connectedCam0 false) ∧
    (connectedCam0 false).m_bConnected = true ∧
    (connectedCam0 false).m_SenderName.val ≠ "" :=
  ⟨by decide, by decide,
   connected_name_nonempty
     [.setup 0 0 false, .receive (fixedSender cam0 1920 1080 true) (.texture 1 3553 0)]
     (connectedCam0 false)
     (by
       intro a ha
       simp only [List.mem_cons, List.mem_singleton, List.not_mem_nil, or_false] at ha
       rcases ha with rfl | rfl
       · trivial
       · have hcam : cam0.val ≠ "" := by decide
         exact ⟨fun _ _ _ _ _ => hcam, fun _ _ _ _ => hcam, fun _ _ _ _ _ => hcam⟩)
     (by decide) (by decide)⟩

/-- C8: let the sender be stable with name `name` and size `W` by `H`, and let the receiver
be disconnected, as `SetupReceiver` leaves it. The first receive call returns true, sets the
update flag, makes no copy call and caches `name`, `W`, `H`. Of the `N` receive calls that
follow (texture or image, in any mix), each dispatches exactly one copy call, with `name`,
`W` and `H`; the copy calls total `N`; and after each call the update flag is clear, the
receiver is connected and the cached name, width and height are still `name`, `W`, `H`,
whatever the copies return. -/
theorem stable_sender_copies (r : SpoutReceiver) (name : SenderName) (W H : Nat)
    (first : Backend) (c : ReceiveCall) (calls : List (Backend × ReceiveCall))
    (hdisc : r.m_bConnected = false) (hfirst : first.Stable name W H)
    (hall : ∀ bc ∈ calls, bc.1.Stable name W H) :
    ((receive r first c).ret = true ∧
     (receive r first c).state.m_bUpdate = true ∧
     (receive r first c).calls.filter Call.isCopy = [] ∧
     (receive r first c).state.m_bConnected = true ∧
     (receive r first c).state.m_SenderName = name ∧
     (receive r first c).state.m_Width = W ∧
     (receive r first c).state.m_Height = H) ∧
    (receiveAll (receive r first c).state calls).length = calls.length ∧
    ((allCalls (receiveAll (receive r first c).state calls)).filter Call.isCopy).length
      = calls.length ∧
    ∀ o ∈ receiveAll (receive r first c).state calls,
      (∃ k, o.calls.filter Call.isCopy = [k] ∧ k.copyArgs = some (name, W, H)) ∧
      o.state.m_bUpdate = false ∧ o.state.m_bConnected = true ∧
      o.state.m_SenderName = name ∧ o.state.m_Width = W ∧ o.state.m_Height = H := by
  have hopen : openReply r first = ⟨true, name, W, H⟩ := hfirst.1 _ _ _ _
  have hrec := receive_open_ok r first c hdisc (by rw [hopen])
  rw [hopen] at hrec
  have hstep := receiveAll_stable calls (receive r first c).state name W H hall
    (by rw [hrec]) (by rw [hrec]) (by rw [hrec]) (by rw [hrec])
  refine ⟨?_, receiveAll_length calls _, ?_, hstep⟩
  · rw [hrec]
    exact ⟨rfl, rfl, by simp [openCall, Call.isCopy], rfl, rfl, rfl, rfl⟩
  · rw [allCalls_copies _ fun o ho => (hstep o ho).1.imp fun _ hk => hk.1]
    exact receiveAll_length calls _

/-- C8, witness: `cam0` at 1920 by 1080; after setup and the first call, one texture receive
whose copy succeeds and one image receive whose copy fails. -/
theorem stable_sender_copies_witness :
    (SetupReceiver SpoutReceiver.SpoutReceiver 0 0 false).m_bConnected = false ∧
    ((allCalls (receiveAll
        (receive (SetupReceiver SpoutReceiver.SpoutReceiver 0 0 false)
          (fixedSender cam0 1920 1080 true) (.texture 1 3553 0)).state
        [(fixedSender cam0 1920 1080 true, .texture 1 3553 0),
         (fixedSender cam0 1920 1080 false, .image 4096 6408 0)])).filter Call.isCopy).length
      = 2 :=
  ⟨by decide,
   (stable_sender_copies (SetupReceiver SpoutReceiver.SpoutReceiver 0 0 false) cam0 1920 1080
      (fixedSender cam0 1920 1080 true) (.texture 1 3553 0)
      [(fixedSender cam0 1920 1080 true, .texture 1 3553 0),
       (fixedSender cam0 1920 1080 false, .image 4096 6408 0)]
      (by decide) ⟨fun _ _ _ _ => rfl, fun _ _ _ => rfl, fun _ _ _ _ => rfl⟩
      (by
        intro bc hbc
        simp only [List.mem_cons, List.mem_singleton, List.not_mem_nil, or_false] at hbc
        rcases hbc with rfl | rfl <;>
          exact ⟨fun _ _ _ _ => rfl, fun _ _ _ => rfl, fun _ _ _ _ => rfl⟩)).2.2.1⟩

end Spout
